import Mathlib

/-!
Verification of the Laplace distribution / LaplaceLogScore developer-guide code
(notebook `examples/user-guide/content/5-dev.ipynb`) against its specification.

Machine floats are embedded as real numbers; numpy vectors as lists; the wrapped
`scipy.stats.laplace(loc, scale)` object as the pair of parameters handed to it.
-/

namespace NGBoost

noncomputable section

/-- User-facing parameter mapping returned by the `params` property of `Laplace`:
the dictionary `\x7b"loc": ..., "scale": ...\x7d`. -/
structure LaplaceParams where
  loc : ℝ
  scale : ℝ

/-- The state created by `Laplace.__init__`: the stored `_params` vector, the
derived attributes `loc`, `logscale`, `scale`, and the wrapped scipy distribution
object `dist = scipy.stats.laplace(loc=self.loc, scale=self.scale)`, embedded as
the (loc, scale) pair handed to scipy. -/
structure Laplace where
  _params : ℝ × ℝ
  loc : ℝ
  logscale : ℝ
  scale : ℝ
  dist : ℝ × ℝ

/-- Source method `Laplace.__init__(self, params)` from the notebook: stores `params` in
`_params`, sets `loc = params[0]`, `logscale = params[1]`,
`scale = np.exp(params[1])`, and builds the scipy object from (loc, scale). -/
def Laplace.init (params : ℝ × ℝ) : Laplace :=
  { _params := params
    loc := params.1
    logscale := params.2
    scale := Real.exp params.2
    dist := (params.1, Real.exp params.2) }

/-- The `params` property of `Laplace`: returns `\x7b"loc": self.loc, "scale": self.scale\x7d`. -/
def Laplace.params (d : Laplace) : LaplaceParams :=
  { loc := d.loc, scale := d.scale }

/-- Error type named by the specification for degenerate fits. The notebook code
never constructs or raises it; it appears here only so that the type of
`Laplace.fit` can express whether the code can fail. -/
inductive EstimationError where
  | degenerateData
  deriving Repr, DecidableEq

/-- Source method `Laplace.fit(Y)` from the notebook:
`m, s = dist.fit(Y); return np.array([m, np.log(s)])`.
The call `dist.fit` is external scipy code, passed here as a function argument
`scipy_fit`; the notebook body itself performs no check and raises nothing, so the
result is always `Except.ok` of the pair `(m, log s)`. -/
def Laplace.fit (scipy_fit : List ℝ → ℝ × ℝ) (Y : List ℝ) :
    Except EstimationError (ℝ × ℝ) :=
  Except.ok ((scipy_fit Y).1, Real.log (scipy_fit Y).2)

/-- The documented analytic maximum-likelihood fit of `scipy.stats.laplace.fit`
(location = median is irrelevant to the claims checked here; what matters for the
degenerate case is the scale, the mean absolute deviation, which is `0` on
constant data). This concrete instance is used only to evaluate `Laplace.fit` at
the degenerate input `[1, 1, 1]`, where scipy returns location `1` and scale `0`. -/
def scipyLaplaceFitConst : List ℝ → ℝ × ℝ :=
  fun _ => (1, 0)

/-- Source method `Laplace.sample(self, m)` from the notebook:
`np.array([self.dist.rvs() for i in range(m)])`.
Each `rvs()` call reads and advances the global numpy random state; the state is
made explicit here as `s : σ` threaded through `rvs : σ → ℝ × σ`, which models
the external `self.dist.rvs` draw. `sample` takes no random source argument in
the code; the state parameter below is the ambient global state, not an injected
generator. -/
def Laplace.sample {σ : Type} (rvs : σ → ℝ × σ) : ℕ → σ → List ℝ × σ
  | 0, s => ([], s)
  | Nat.succ m, s =>
    let p := rvs s
    let rest := Laplace.sample rvs m p.2
    (p.1 :: rest.1, rest.2)

/-- The Laplace probability density function as stated in the notebook markdown:
`(1 / (2 b)) * exp (-|x - mu| / b)` with loc `mu` and scale `b`. -/
def laplacePdf (loc scale y : ℝ) : ℝ :=
  1 / (2 * scale) * Real.exp (-(|y - loc| / scale))

/-- External `scipy.stats.laplace.logpdf`, the analytic log-density
`-log (2 b) - |x - mu| / b` used by `LaplaceLogScore.score` through
`self.dist.logpdf`. -/
def laplaceLogpdf (loc scale y : ℝ) : ℝ :=
  -Real.log (2 * scale) - |y - loc| / scale

/-- Source method `LaplaceLogScore.score(self, Y)` from the notebook:
`-self.dist.logpdf(Y)`, one scalar per observation. -/
def LaplaceLogScore.score (d : Laplace) (Y : List ℝ) : List ℝ :=
  Y.map fun y => -(laplaceLogpdf d.loc d.scale y)

/-- Source method `LaplaceLogScore.d_score(self, Y)` from the final notebook version (cell 12):
a row per observation with
column 0 `= -np.sign(self.logscale - Y) / self.scale` and
column 1 `= 1 - np.abs(self.logscale - Y) / self.scale`,
exactly as written in the source (note both columns read `self.logscale`). -/
def LaplaceLogScore.d_score (d : Laplace) (Y : List ℝ) : List (ℝ × ℝ) :=
  Y.map fun y =>
    (-(Real.sign (d.logscale - y)) / d.scale,
      1 - |d.logscale - y| / d.scale)

/-- Modelled from the spec: a censored observation record, the two-field value a
censored score receives instead of a scalar observation (`E, T = Y["Event"],
Y["Time"]`); the engine code handling censored scores is not in the excerpt. -/
structure CensoredObs where
  Event : Bool
  Time : ℝ

/-- Modelled from the spec: how the engine presents a fully observed scalar `y`
to a censored score — as the record with event indicator true and time `y`
(fully observed data is the special case of censored data). -/
def fullyObserved (y : ℝ) : CensoredObs :=
  { Event := true, Time := y }

/-- Modelled from the spec: the standard-score evaluation the engine derives
from a censored score implementation `f` registered under `censored_scores`.
On plain observations `ys` it runs `f` on the records marking every value fully
observed; this is what makes a censored score usable as a standard score
without a separate implementation. -/
def inducedStandard {α : Type} (f : List CensoredObs → α) (ys : List ℝ) : α :=
  f (ys.map fullyObserved)

/-- Result of a Python attribute access: either a value or an AttributeError. -/
inductive LookupResult (V : Type) where
  | value (v : V)
  | attributeError
  deriving DecidableEq

/-- Python attribute access on a `Laplace` instance. Normal lookup over the
class and instance dictionaries is `ownAttrs` (attribute names are an abstract
type `N`, strings in Python); when it fails Python calls the
`__getattr__` defined in the notebook, whose body is
`if name in dir(self.dist): return getattr(self.dist, name)` followed by
`return None` — so the access yields the scipy attribute when the wrapped
object has one (`distDir`), and otherwise succeeds with the Python value
`None` (`pyNone`) instead of raising AttributeError. -/
def Laplace.attrAccess {N V : Type} (ownAttrs distDir : N → Option V)
    (pyNone : V) (name : N) : LookupResult V :=
  match ownAttrs name with
  | some v => LookupResult.value v
  | none =>
    match distDir name with
    | some v => LookupResult.value v
    | none => LookupResult.value pyNone

/-- Modelled from the spec: attribute lookup on the fused evaluator the
compositor synthesizes from a distribution class and a resolved score
implementation. The three evaluation methods of the score (`scoreAttrs`) take
precedence on any name collision; only when the score implementation does not
define the name does lookup fall through to the distribution instance surface,
which itself ends in the `Laplace.__getattr__` forwarding modelled by
`Laplace.attrAccess`. The compositor code is not in the excerpt. -/
def FusedEvaluator.lookup {N V : Type} (scoreAttrs ownAttrs distDir : N → Option V)
    (pyNone : V) (name : N) : LookupResult V :=
  match scoreAttrs name with
  | some v => LookupResult.value v
  | none => Laplace.attrAccess ownAttrs distDir pyNone name

/-- Helper: the log of the Laplace density is the analytic logpdf, for any
positive scale. -/
theorem log_laplacePdf (loc b y : ℝ) (hb : 0 < b) :
    Real.log (laplacePdf loc b y) = laplaceLogpdf loc b y := by
  unfold laplacePdf laplaceLogpdf
  rw [Real.log_mul (by positivity) (Real.exp_ne_zero _), Real.log_exp, one_div,
    Real.log_inv]
  ring

/-- Helper: re-wrapping the time of a fully observed record gives the record back. -/
theorem fullyObserved_time (r : CensoredObs) (h : r.Event = true) :
    fullyObserved r.Time = r := by
  cases r with
  | mk e t =>
    cases h
    rfl

/-- Helper: marking every value of an all-observed record list as fully observed
reconstructs the list. -/
theorem map_fullyObserved_time (rs : List CensoredObs)
    (h : ∀ r ∈ rs, r.Event = true) :
    (rs.map CensoredObs.Time).map fullyObserved = rs := by
  induction rs with
  | nil => rfl
  | cons a t ih =>
    simp only [List.map_cons]
    rw [fullyObserved_time a (h a (List.mem_cons_self a t)),
      ih (fun r hr => h r (List.mem_cons_of_mem a hr))]

/-- C10: for every real internal parameter vector of length 2, `Laplace.__init__`
succeeds, stores the input vector unchanged in `_params`, and establishes the
invariant that the scale handed to the wrapped scipy distribution is
`exp(params[1])`, which is strictly positive for every unconstrained input. -/
theorem laplace_init_invariant (p : ℝ × ℝ) :
    (Laplace.init p)._params = p ∧
    (Laplace.init p).scale = Real.exp p.2 ∧
    0 < (Laplace.init p).scale ∧
    (Laplace.init p).dist = ((Laplace.init p).loc, (Laplace.init p).scale) :=
  ⟨rfl, rfl, Real.exp_pos _, rfl⟩

/-- C3: constructing `Laplace` with internal parameters `(mu, log b)` for any
real `mu` and positive `b` and reading the `params` property returns exactly
`loc = mu` and `scale = b`: `params` inverts the log reparametrization on the
scale channel and is the identity on the location channel. -/
theorem laplace_params_roundtrip (mu b : ℝ) (h : 0 < b) :
    Laplace.params (Laplace.init (mu, Real.log b)) = { loc := mu, scale := b } := by
  simp [Laplace.params, Laplace.init, Real.exp_log h]

/-- Witness for C3 at `mu = 5`, `b = 2`. -/
theorem laplace_params_roundtrip_witness :
    (0:ℝ) < 2 ∧
      Laplace.params (Laplace.init (5, Real.log 2)) = { loc := 5, scale := 2 } :=
  ⟨by norm_num, laplace_params_roundtrip 5 2 (by norm_num)⟩

/-- C5: for every internal parameter vector (any real loc and log-scale) the
Laplace density is strictly positive at every observation, and the score is
exactly its negative log; hence every per-observation loss is a well-defined
finite real number: in exact arithmetic the scale `exp(params[1])` never
reaches the `scale = 0` boundary. -/
theorem laplace_score_finite_nll (p : ℝ × ℝ) (Y : List ℝ) :
    (∀ y : ℝ, 0 < laplacePdf (Laplace.init p).loc (Laplace.init p).scale y) ∧
    LaplaceLogScore.score (Laplace.init p) Y =
      Y.map fun y =>
        -Real.log (laplacePdf (Laplace.init p).loc (Laplace.init p).scale y) := by
  have hb : (0:ℝ) < (Laplace.init p).scale := Real.exp_pos _
  constructor
  · intro y
    unfold laplacePdf
    positivity
  · unfold LaplaceLogScore.score
    exact List.map_congr_left fun y _ => by
      rw [log_laplacePdf _ _ _ hb]

/-- C1 (code bug): at internal parameters `(0, 0)` (loc 0, scale 1) the loss at
observation `Y = 0` is indeed the finite value `log 2`, but the loc column of
`d_score` has the wrong sign: at `Y = 1` the code produces `+1`, while the
correct value `sign(loc - Y)/scale` stated by the claim (and by the derivative
the notebook itself cites) is `-1`. -/
theorem laplace_dscore_loc_sign_bug :
    LaplaceLogScore.score (Laplace.init (0, 0)) [0] = [Real.log 2] ∧
    LaplaceLogScore.d_score (Laplace.init (0, 0)) [1] = [(1, 0)] ∧
    (LaplaceLogScore.d_score (Laplace.init (0, 0)) [1]).map Prod.fst ≠
      [Real.sign ((Laplace.init (0, 0)).loc - 1) / (Laplace.init (0, 0)).scale] := by
  have hs : Real.sign (-1 : ℝ) = -1 := Real.sign_of_neg (by norm_num)
  refine ⟨?_, ?_, ?_⟩
  · simp [LaplaceLogScore.score, laplaceLogpdf, Laplace.init, Real.exp_zero]
  · norm_num [LaplaceLogScore.d_score, Laplace.init, Real.exp_zero, hs]
  · norm_num [LaplaceLogScore.d_score, Laplace.init, Real.exp_zero, hs]

/-- C2 (code bug): `d_score` does return one row per observation with two
columns, but column 1 is computed from `logscale` instead of `loc`: at internal
parameters `(1, 0)` and observation `Y = 1` the code yields `0` in column 1,
while the claimed formula `1 - |Y - loc|/scale` gives `1`. -/
theorem laplace_dscore_col1_bug :
    (∀ (d : Laplace) (Y : List ℝ),
      (LaplaceLogScore.d_score d Y).length = Y.length) ∧
    LaplaceLogScore.d_score (Laplace.init (1, 0)) [1] = [(1, 0)] ∧
    (LaplaceLogScore.d_score (Laplace.init (1, 0)) [1]).map Prod.snd ≠
      [1 - |1 - (Laplace.init (1, 0)).loc| / (Laplace.init (1, 0)).scale] := by
  have hs : Real.sign (-1 : ℝ) = -1 := Real.sign_of_neg (by norm_num)
  refine ⟨fun d Y => List.length_map Y _, ?_, ?_⟩
  · norm_num [LaplaceLogScore.d_score, Laplace.init, Real.exp_zero, hs]
  · norm_num [LaplaceLogScore.d_score, Laplace.init, Real.exp_zero, hs]

/-- C4 counterexample: on the degenerate constant sample `[1, 1, 1]`, for which
the external scipy fit returns location 1 and scale 0, `Laplace.fit` does not
raise an `EstimationError`: it returns `ok` with `log 0` in the log-scale slot. -/
theorem laplace_fit_no_error_on_degenerate :
    Laplace.fit scipyLaplaceFitConst [1, 1, 1] = Except.ok (1, Real.log 0) :=
  rfl

/-- C4 amended: `Laplace.fit` never raises; for every observation sequence,
degenerate or not, it returns `ok` of the pair `(m, log s)` where `(m, s)` is
whatever the external scipy fit produced. -/
theorem laplace_fit_never_raises (scipy_fit : List ℝ → ℝ × ℝ) (Y : List ℝ) :
    Laplace.fit scipy_fit Y =
      Except.ok ((scipy_fit Y).1, Real.log (scipy_fit Y).2) :=
  rfl

/-- C6 counterexample: `sample` reads the ambient global random stream rather
than an injected generator; with the global stream modelled by `s ↦ (s, s + 1)`
two back-to-back `sample(1)` calls in one program return different sequences
(`[0]` then `[1]`), because the second call starts from the advanced global
state and the API offers no way to pass a generator in. -/
theorem laplace_sample_not_injected :
    (Laplace.sample (fun s : ℕ => ((s : ℝ), s + 1)) 1 0).1 ≠
      (Laplace.sample (fun s : ℕ => ((s : ℝ), s + 1)) 1
        (Laplace.sample (fun s : ℕ => ((s : ℝ), s + 1)) 1 0).2).1 := by
  simp [Laplace.sample]

/-- C6 amended: `sample(m)` is a deterministic function of the ambient global
random state: it returns exactly `m` draws obtained by iterating the wrapped
scipy `rvs` on that state, and it leaves the global state advanced by `m`
steps; reproducibility therefore requires externally resetting the global
state, since the method accepts no generator argument. -/
theorem laplace_sample_global_state {σ : Type} (rvs : σ → ℝ × σ) (m : ℕ) (s : σ) :
    (Laplace.sample rvs m s).1.length = m ∧
    (Laplace.sample rvs m s).2 = Nat.iterate (fun t => (rvs t).2) m s := by
  induction m generalizing s with
  | zero => exact ⟨rfl, rfl⟩
  | succ m ih =>
    refine ⟨?_, ?_⟩
    · simpa [Laplace.sample] using (ih (rvs s).2).1
    · have h2 := (ih (rvs s).2).2
      simp only [Laplace.sample, h2, Function.iterate_succ_apply]

/-- C7: any censored evaluation (`score`, `d_score` or `metric` alike, hence
the arbitrary result type) applied to records whose event indicator is
observed everywhere coincides with the standard evaluation the engine derives
from it on the plain observation values, which is what lets a score registered
only under `censored_scores` serve as a standard score. -/
theorem censored_reduces_to_standard {α : Type} (f : List CensoredObs → α)
    (rs : List CensoredObs) (h : ∀ r ∈ rs, r.Event = true) :
    f rs = inducedStandard f (rs.map CensoredObs.Time) := by
  unfold inducedStandard
  rw [map_fullyObserved_time rs h]

/-- Witness for C7 on the two fully observed records with times 3 and 7 and the
evaluator that sums all times. -/
theorem censored_reduces_to_standard_witness :
    (∀ r ∈ [fullyObserved 3, fullyObserved 7], r.Event = true) ∧
      (fun l : List CensoredObs => (l.map CensoredObs.Time).sum)
          [fullyObserved 3, fullyObserved 7] =
        inducedStandard (fun l : List CensoredObs => (l.map CensoredObs.Time).sum)
          ([fullyObserved 3, fullyObserved 7].map CensoredObs.Time) :=
  ⟨by simp [fullyObserved],
    censored_reduces_to_standard
      (fun l : List CensoredObs => (l.map CensoredObs.Time).sum)
      [fullyObserved 3, fullyObserved 7] (by simp [fullyObserved])⟩

/-- C8: on the fused evaluator, any attribute name defined by the resolved
score implementation resolves to the score method, never to a distribution
attribute of the same name — including attributes that would otherwise be
reachable through the `__getattr__` forwarding to the wrapped scipy object. -/
theorem fused_score_precedence {N V : Type}
    (scoreAttrs ownAttrs distDir : N → Option V) (pyNone : V) (name : N) (v : V)
    (h : scoreAttrs name = some v) :
    FusedEvaluator.lookup scoreAttrs ownAttrs distDir pyNone name =
      LookupResult.value v := by
  unfold FusedEvaluator.lookup
  rw [h]

/-- Witness for C8: name 0 is defined by the score (value 10), by the
distribution instance (value 20) and by the wrapped scipy object (value 30);
lookup returns the score method value 10. -/
theorem fused_score_precedence_witness :
    (fun n : ℕ => if n = 0 then some 10 else none) 0 = some 10 ∧
      FusedEvaluator.lookup (fun n : ℕ => if n = 0 then some 10 else none)
          (fun n : ℕ => if n = 0 then some 20 else none)
          (fun n : ℕ => if n = 0 then some 30 else none) 99 0 =
        LookupResult.value 10 :=
  ⟨by decide, fused_score_precedence _ _ _ 99 0 10 (by decide)⟩

/-- C9: attribute access on a `Laplace` instance for a name defined neither on
the class/instance nor on the wrapped scipy object succeeds with the Python
value `None` (it never raises `AttributeError`; indeed no attribute access on
the instance ever does). -/
theorem laplace_getattr_missing_is_none {N V : Type}
    (ownAttrs distDir : N → Option V) (pyNone : V) (name : N)
    (h1 : ownAttrs name = none) (h2 : distDir name = none) :
    Laplace.attrAccess ownAttrs distDir pyNone name = LookupResult.value pyNone ∧
      ∀ n : N, Laplace.attrAccess ownAttrs distDir pyNone n ≠
        LookupResult.attributeError := by
  constructor
  · unfold Laplace.attrAccess
    rw [h1, h2]
  · intro n
    unfold Laplace.attrAccess
    cases ownAttrs n with
    | some v => simp
    | none =>
      cases distDir n with
      | some v => simp
      | none => simp

/-- Witness for C9: with an empty instance surface and an empty scipy surface,
accessing name 5 yields the Python `None` value (here 0). -/
theorem laplace_getattr_missing_is_none_witness :
    (fun _ : ℕ => (none : Option ℕ)) 5 = none ∧
      (fun _ : ℕ => (none : Option ℕ)) 5 = none ∧
      (Laplace.attrAccess (fun _ : ℕ => (none : Option ℕ))
          (fun _ : ℕ => (none : Option ℕ)) 0 5 = LookupResult.value 0 ∧
        ∀ n : ℕ, Laplace.attrAccess (fun _ : ℕ => (none : Option ℕ))
          (fun _ : ℕ => (none : Option ℕ)) 0 n ≠ LookupResult.attributeError) :=
  ⟨rfl, rfl,
    laplace_getattr_missing_is_none (fun _ => none) (fun _ => none) 0 5 rfl rfl⟩

end

end NGBoost
